import Mathlib

/-!
Verification of the session-scoped conversation and artifact manager of the
Audio-Assistant backend (src/app.py), as a shallow embedding in Lean 4.

The global session dictionary `sessions` is modelled as a function
`Store : String → Option SessionState`, the upload folder on disk as a
function `FS : String → Option (List Nat)` (path → file bytes), and each
Flask handler as a pure function from the relevant state and request inputs
to a response value and the updated state.  Wall-clock readings
(`time.time()`, `datetime.now().isoformat()`) are passed in as explicit
parameters; the inference client `model.generate_content` is an explicit
function parameter returning `Except String String` (exception or text),
with `Option` around it modelling `model is None`.
-/

/-- A chat message as stored in `sessions[sid]["messages"]`. -/
structure Message where
  role : String
  content : String
  timestamp : String
deriving DecidableEq, Repr

/-- A feedback entry as stored in `sessions[sid]["feedback"]`.  `rating` is
caller-supplied and only ever rendered into the CSV, so it is modelled by its
string rendering. -/
structure FeedbackEntry where
  rating : String
  comment : String
  timestamp : String
deriving DecidableEq, Repr

/-- The per-session record created by the create-if-absent block of every handler. -/
structure SessionState where
  messages : List Message
  files : List String
  ticket_counter : Nat
  feedback : List FeedbackEntry
deriving DecidableEq, Repr

/-- The dictionary literal `messages=[], files=[], ticket_counter=0, feedback=[]` used by every create-if-absent block in app.py. -/
def defaultSession : SessionState :=
  { messages := [], files := [], ticket_counter := 0, feedback := [] }

/-- The global `sessions` dict: session id → session state. -/
def Store : Type := String → Option SessionState

/-- The upload folder: path → file bytes (each byte a `Nat` below 256). -/
def FS : Type := String → Option (List Nat)

/-- `sessions[sid] = s` (dictionary assignment). -/
def updateStore (store : Store) (sid : String) (s : SessionState) : Store :=
  fun k => if k = sid then some s else store k

/-- `if session_id not in sessions: sessions[session_id] = {...defaults...}`,
the create-if-absent block shared by init_session, upload_file, chat,
create_ticket and submit_feedback. -/
def getOrCreate (store : Store) (sid : String) : Store :=
  match store sid with
  | some _ => store
  | none => updateStore store sid defaultSession

/-- Read `sessions[sid]` after a create-if-absent block (never a KeyError). -/
def readSession (store : Store) (sid : String) : SessionState :=
  (store sid).getD defaultSession

/-- `os.path.join(UPLOAD_FOLDER, filename)` with `UPLOAD_FOLDER = "uploads"`. -/
def uploadPath (filename : String) : String := "uploads/" ++ filename

/-! ### base64 (Python `base64.b64encode(...).decode("utf-8")`) -/

/-- The standard base64 alphabet. -/
def base64Alphabet : List Char :=
  "ABCDEFGHIJKLMNOPQRSTUVWXYZabcdefghijklmnopqrstuvwxyz0123456789+/".toList

/-- The base64 digit for a 6-bit value. -/
def b64digit (n : Nat) : Char := base64Alphabet.getD n 'A'

/-- RFC 4648 base64 encoding of a byte list, as `base64.b64encode` produces. -/
def b64encode : List Nat → String
  | [] => ""
  | [a] =>
      String.mk [b64digit (a / 4), b64digit (a % 4 * 16)] ++ "=="
  | [a, b] =>
      String.mk [b64digit (a / 4), b64digit (a % 4 * 16 + b / 16),
                 b64digit (b % 16 * 4)] ++ "="
  | a :: b :: c :: rest =>
      String.mk [b64digit (a / 4), b64digit (a % 4 * 16 + b / 16),
                 b64digit (b % 16 * 4 + c / 64), b64digit (c % 64)]
        ++ b64encode rest

/-! ### Message assembly inside the chat handler -/

/-- Python `str.lower()` (per-character lowercasing; the filenames involved
are ASCII, where `Char.toLower` agrees with Python). -/
def strLower (s : String) : String := String.mk (s.toList.map Char.toLower)

/-- Python `str.endswith(suffix)`. -/
def strEndsWith (s suffix : String) : Bool := suffix.toList.isSuffixOf s.toList

/-- A content part submitted to the model: `{"text": ...}` or
`{"inline_data": {"mime_type": ..., "data": ...}}`. -/
inductive ContentPart where
  | text (text : String)
  | inline_data (mime_type : String) (data : String)
deriving DecidableEq, Repr

/-- `filename.lower().endswith((".wav", ".mp3", ".aiff", ".aac", ".ogg", ".flac"))`. -/
def isAudioName (filename : String) : Bool :=
  [".wav", ".mp3", ".aiff", ".aac", ".ogg", ".flac"].any
    (fun ext => strEndsWith (strLower filename) ext)

/-- The `elif` chain assigning `mime_type` from the lowered filename; `none`
models the (unreachable under `isAudioName`) case where no branch fires and
the Python variable would be unbound. -/
def mimeFor (filename : String) : Option String :=
  let f := strLower filename
  if strEndsWith f ".wav" then some "audio/wav"
  else if strEndsWith f ".mp3" then some "audio/mp3"
  else if strEndsWith f ".aiff" then some "audio/aiff"
  else if strEndsWith f ".aac" then some "audio/aac"
  else if strEndsWith f ".ogg" then some "audio/ogg"
  else if strEndsWith f ".flac" then some "audio/flac"
  else none

/-- The body of one iteration of the file loop in the chat handler: the part
produced for `filename`, or `none` when the file is missing on disk or its
extension is not in the audio allow-list (the loop then produces nothing). -/
def audioPart (fs : FS) (filename : String) : Option ContentPart :=
  match fs (uploadPath filename) with
  | none => none
  | some bytes =>
      if isAudioName filename then
        match mimeFor filename with
        | some mime => some (ContentPart.inline_data mime (b64encode bytes))
        | none => none
      else none

/-- One iteration of the file loop: `user_parts.insert(0, part)` when a part
is produced, otherwise leave the list alone. -/
def partStep (fs : FS) (parts : List ContentPart) (filename : String) :
    List ContentPart :=
  match audioPart fs filename with
  | some p => p :: parts
  | none => parts

/-- `user_parts` as built by the chat handler: start from the text part (when
`message` is truthy), then walk the session files in stored order and
`insert(0, ...)` each audio part found. -/
def assembleParts (fs : FS) (message : String) (files : List String) :
    List ContentPart :=
  files.foldl (partStep fs) (if message ≠ "" then [ContentPart.text message] else [])

/-! ### Route handlers -/

/-- Response of POST /init_session (success is always `true`). -/
structure InitResponse where
  success : Bool
  files : List String
  ticket_counter : Nat
deriving DecidableEq, Repr

/-- POST /init_session. -/
def init_session (store : Store) (sid : String) : InitResponse × Store :=
  let store1 := getOrCreate store sid
  let s := readSession store1 sid
  ({ success := true, files := s.files, ticket_counter := s.ticket_counter },
   store1)

/-- One uploaded file in the multipart request: the `int(time.time())` value
at its iteration, the original `file.filename`, and its bytes. -/
structure Upload where
  time : Nat
  filename : String
  bytes : List Nat
deriving DecidableEq, Repr

/-- `f"{int(time.time())}_{file.filename}"`. -/
def storedName (t : Nat) (original : String) : String :=
  toString t ++ "_" ++ original

/-- Response of POST /upload (success is always `true`). -/
structure UploadResponse where
  success : Bool
  files : List String
deriving DecidableEq, Repr

/-- One iteration of the upload loop.  `if file:` is FileStorage truthiness,
i.e. a non-empty original filename; `file.save` overwrites whatever is at the
target path; the stored name is appended to the session file list and to the
`uploaded_files` response list. -/
def uploadStep (sid : String) (acc : List String × Store × FS) (u : Upload) :
    List String × Store × FS :=
  let (uploaded, st, fs) := acc
  if u.filename ≠ "" then
    let filename := storedName u.time u.filename
    let fs' := fun k =>
      if k = uploadPath filename then some u.bytes else fs k
    let s := readSession st sid
    let st' := updateStore st sid { s with files := s.files ++ [filename] }
    (uploaded ++ [filename], st', fs')
  else acc

/-- POST /upload. -/
def upload_file (store : Store) (fs : FS) (sid : String)
    (uploads : List Upload) : UploadResponse × Store × FS :=
  let store1 := getOrCreate store sid
  let r := uploads.foldl (uploadStep sid) ([], store1, fs)
  ({ success := true, files := r.1 }, r.2.1, r.2.2)

/-- Response of POST /chat: the success shape or the two error shapes (both
error shapes carry `error` plus a canned `response` apology).  Every shape is
returned with `jsonify(...)` and no explicit status code. -/
inductive ChatResponse where
  | ok (response : String) (is_voice_input : Bool)
  | failure (error : String) (response : String)
deriving DecidableEq, Repr

/-- The HTTP status Flask attaches to each chat handler return: the handler
never passes a status, so every response is served with 200. -/
def chatStatus : ChatResponse → Nat := fun _ => 200

/-- One role-tagged entry of the list passed to `model.generate_content`. -/
structure RoleParts where
  role : String
  parts : List ContentPart
deriving DecidableEq, Repr

/-- The inference client: `none` models `model is None` (load failure at
startup); otherwise a function returning generated text or the message of the raised
exception. -/
def Gateway : Type := Option (List RoleParts → Except String String)

/-- POST /chat.  `tsUser` and `tsBot` are the two `datetime.now().isoformat()`
readings.  The user message is appended before inference; the `except` block
catches any inference failure after that append. -/
def chat (store : Store) (fs : FS) (gw : Gateway) (sid message : String)
    (is_voice_input : Bool) (tsUser tsBot : String) : ChatResponse × Store :=
  let store1 := getOrCreate store sid
  let s := readSession store1 sid
  let s1 := { s with
    messages := s.messages ++ [⟨"user", message, tsUser⟩] }
  let store2 := updateStore store1 sid s1
  match gw with
  | none =>
      (ChatResponse.failure "Model not available"
        "I apologize, but the AI model is currently unavailable.", store2)
  | some generate =>
      let user_parts := assembleParts fs message s1.files
      match generate [⟨"user", user_parts⟩] with
      | Except.error e =>
          (ChatResponse.failure e
            "An error occurred while processing your request.", store2)
      | Except.ok bot_response =>
          let s2 := { s1 with
            messages := s1.messages ++ [⟨"assistant", bot_response, tsBot⟩] }
          (ChatResponse.ok bot_response is_voice_input,
           updateStore store2 sid s2)

/-- `f"Q{counter:03d}"`: `Q` followed by the counter zero-padded to a minimum
width of 3 digits. -/
def ticketFormat (n : Nat) : String :=
  let s := toString n
  "Q" ++ (if s.length < 3 then String.mk (List.replicate (3 - s.length) '0') else "") ++ s

/-- Response of POST /api/create-ticket (success is always `true`). -/
structure TicketResponse where
  success : Bool
  ticket_number : String
  message : String
deriving DecidableEq, Repr

/-- POST /api/create-ticket. -/
def create_ticket (store : Store) (sid : String) : TicketResponse × Store :=
  let store1 := getOrCreate store sid
  let s := readSession store1 sid
  let s' := { s with ticket_counter := s.ticket_counter + 1 }
  let ticket_number := ticketFormat s'.ticket_counter
  ({ success := true, ticket_number := ticket_number,
     message := "Quality Inspection Ticket " ++ ticket_number
       ++ " created successfully!" },
   updateStore store1 sid s')

/-- Response of POST /export/json: the full projection, or an error object. -/
inductive ExportJsonResponse where
  | ok (session_id : String) (messages : List Message) (files : List String)
      (ticket_counter : Nat)
  | err (error : String)
deriving DecidableEq, Repr

/-- POST /export/json: read-only, no create-if-absent block. -/
def export_json (store : Store) (sid : String) : ExportJsonResponse × Store :=
  match store sid with
  | some s => (ExportJsonResponse.ok sid s.messages s.files s.ticket_counter,
               store)
  | none => (ExportJsonResponse.err "Session not found", store)

/-- Response of POST /clear. -/
structure ClearResponse where
  success : Bool
  error : Option String
deriving DecidableEq, Repr

/-- The file-deletion loop of the clear handler:
`if os.path.exists(filepath): os.remove(filepath)` for each session file
(the surrounding try/except makes any deletion error non-fatal). -/
def deleteBlobs (fs : FS) (files : List String) : FS :=
  files.foldl
    (fun fs f =>
      match fs (uploadPath f) with
      | some _ => fun k => if k = uploadPath f then none else fs k
      | none => fs)
    fs

/-- POST /clear: no create-if-absent block; unknown ids get a soft error. -/
def clear_chat (store : Store) (fs : FS) (sid : String) :
    ClearResponse × Store × FS :=
  match store sid with
  | some s =>
      let fs' := deleteBlobs fs s.files
      ({ success := true, error := none },
       updateStore store sid { s with messages := [], files := [] }, fs')
  | none => ({ success := false, error := some "Session not found" }, store, fs)

/-- POST /feedback (success is always `true`). -/
def submit_feedback (store : Store) (sid rating comment ts : String) :
    Bool × Store :=
  let store1 := getOrCreate store sid
  let s := readSession store1 sid
  (true, updateStore store1 sid
    { s with feedback := s.feedback ++ [⟨rating, comment, ts⟩] })

/-- The f-string appended for one feedback entry: timestamp, comma, rating,
comma, then the comment wrapped in double quotes verbatim (no escaping of
embedded quotes or commas), then a newline. -/
def feedbackRow (fb : FeedbackEntry) : String :=
  fb.timestamp ++ "," ++ fb.rating ++ ",\"" ++ fb.comment ++ "\"\n"

/-- The CSV built by the export_feedback handler: header line, then `+=` of
one row per entry in list order. -/
def feedbackCsv (entries : List FeedbackEntry) : String :=
  entries.foldl (fun acc fb => acc ++ feedbackRow fb) "Timestamp,Rating,Comment\n"

/-- Response of POST /export/feedback. -/
inductive ExportFeedbackResponse where
  | ok (csv_data : String) (filename : String)
  | err (error : String)
deriving DecidableEq, Repr

/-- POST /export/feedback: `if session_id in sessions and
sessions[session_id]["feedback"]:` — truthiness of the feedback list. -/
def export_feedback (store : Store) (sid : String) :
    ExportFeedbackResponse × Store :=
  match store sid with
  | some s =>
      if s.feedback ≠ [] then
        (ExportFeedbackResponse.ok (feedbackCsv s.feedback)
          ("feedback_" ++ sid ++ ".csv"), store)
      else (ExportFeedbackResponse.err "No feedback data available", store)
  | none => (ExportFeedbackResponse.err "No feedback data available", store)

/-- The empty `sessions = {}` dict at process start. -/
def emptyStore : Store := fun _ => none

/-- An empty upload folder. -/
def emptyFS : FS := fun _ => none

/-- N sequential calls of the create_ticket handler on one session id,
collecting the returned ticket numbers and threading the store. -/
def ticketNumbers (sid : String) : Nat → Store → List String × Store
  | 0, store => ([], store)
  | n + 1, store =>
      let r := create_ticket store sid
      let rest := ticketNumbers sid n r.2
      (r.1.ticket_number :: rest.1, rest.2)

/-! ### Example states used to instantiate the theorems -/

/-- An upload folder holding a 1-byte `a.wav` and a 1-byte `b.mp3`. -/
def fsAB : FS := fun p =>
  if p = "uploads/a.wav" then some [0]
  else if p = "uploads/b.mp3" then some [1]
  else none

/-- An upload folder holding `a.wav` and a non-audio `doc.pdf`. -/
def fsDoc : FS := fun p =>
  if p = "uploads/a.wav" then some [0]
  else if p = "uploads/doc.pdf" then some [3]
  else none

/-- A store with one populated session `s1`. -/
def storeEx : Store :=
  updateStore emptyStore "s1"
    { messages := [⟨"user", "hi", "t0"⟩],
      files := ["f.wav"],
      ticket_counter := 2,
      feedback := [⟨"5", "good", "t1"⟩, ⟨"1", "bad, \"quoted\"", "t2"⟩] }

/-! ### Store lemmas -/

theorem updateStore_self (store : Store) (sid : String) (s : SessionState) :
    updateStore store sid s sid = some s := by
  simp [updateStore]

theorem getOrCreate_self (store : Store) (sid : String) :
    getOrCreate store sid sid = some ((store sid).getD defaultSession) := by
  unfold getOrCreate
  cases h : store sid <;> simp [h, updateStore]

theorem readSession_getOrCreate (store : Store) (sid : String) :
    readSession (getOrCreate store sid) sid = (store sid).getD defaultSession := by
  unfold readSession
  rw [getOrCreate_self]
  rfl

/-! ### Message-assembly lemmas -/

theorem foldl_partStep (fs : FS) (files : List String) :
    ∀ init, files.foldl (partStep fs) init =
      (files.filterMap (audioPart fs)).reverse ++ init := by
  induction files with
  | nil => intro init; simp
  | cons f rest ih =>
      intro init
      rw [List.foldl_cons, ih, List.filterMap_cons]
      unfold partStep
      cases h : audioPart fs f <;> simp [h]

theorem assembleParts_eq (fs : FS) (message : String) (files : List String) :
    assembleParts fs message files =
      (files.filterMap (audioPart fs)).reverse ++
        (if message ≠ "" then [ContentPart.text message] else []) := by
  unfold assembleParts
  exact foldl_partStep fs files _

/-! ### create_ticket lemmas -/

theorem create_ticket_number (store : Store) (sid : String) :
    (create_ticket store sid).1.ticket_number =
      ticketFormat (((store sid).getD defaultSession).ticket_counter + 1) := by
  unfold create_ticket
  simp [readSession_getOrCreate]

theorem create_ticket_store (store : Store) (sid : String) :
    (create_ticket store sid).2 sid =
      some ⟨((store sid).getD defaultSession).messages,
            ((store sid).getD defaultSession).files,
            ((store sid).getD defaultSession).ticket_counter + 1,
            ((store sid).getD defaultSession).feedback⟩ := by
  unfold create_ticket
  simp [readSession_getOrCreate, updateStore_self]

theorem ticketNumbers_succ_fst (sid : String) (n : Nat) (store : Store) :
    (ticketNumbers sid (n + 1) store).1 =
      (create_ticket store sid).1.ticket_number ::
        (ticketNumbers sid n (create_ticket store sid).2).1 := rfl

theorem ticketNumbers_succ_snd (sid : String) (n : Nat) (store : Store) :
    (ticketNumbers sid (n + 1) store).2 =
      (ticketNumbers sid n (create_ticket store sid).2).2 := rfl

theorem ticketNumbers_results (sid : String) (N : Nat) : ∀ store : Store,
    (ticketNumbers sid N store).1 =
      (List.range N).map
        (fun i =>
          ticketFormat (((store sid).getD defaultSession).ticket_counter + i + 1)) := by
  induction N with
  | zero => intro store; simp [ticketNumbers]
  | succ n ih =>
      intro store
      rw [ticketNumbers_succ_fst, List.range_succ_eq_map, List.map_cons,
        List.map_map, create_ticket_number, ih, create_ticket_store]
      simp only [Option.getD_some, Nat.add_zero]
      congr 1
      apply List.map_congr_left
      intro a _
      simp only [Function.comp_apply]
      congr 1
      omega

theorem ticketNumbers_counter (sid : String) (N : Nat) : ∀ store : Store,
    (ticketNumbers sid (N + 1) store).2 sid =
      some ⟨((store sid).getD defaultSession).messages,
            ((store sid).getD defaultSession).files,
            ((store sid).getD defaultSession).ticket_counter + (N + 1),
            ((store sid).getD defaultSession).feedback⟩ := by
  induction N with
  | zero =>
      intro store
      rw [ticketNumbers_succ_snd]
      show (create_ticket store sid).2 sid = _
      rw [create_ticket_store]
  | succ m ih =>
      intro store
      rw [ticketNumbers_succ_snd]
      show (ticketNumbers sid (m + 1) (create_ticket store sid).2).2 sid = _
      rw [ih, create_ticket_store]
      simp only [Option.getD_some, Option.some.injEq, SessionState.mk.injEq,
        true_and, and_true]
      omega

/-! ### Feedback CSV lemmas -/

/-- The concatenation of the CSV rows of a list of entries, in list order. -/
def feedbackRows : List FeedbackEntry → String
  | [] => ""
  | fb :: rest => feedbackRow fb ++ feedbackRows rest

theorem foldl_feedbackRow (entries : List FeedbackEntry) :
    ∀ acc : String,
      entries.foldl (fun acc fb => acc ++ feedbackRow fb) acc =
        acc ++ feedbackRows entries := by
  induction entries with
  | nil => intro acc; simp [feedbackRows]
  | cons fb rest ih =>
      intro acc
      rw [List.foldl_cons, ih, feedbackRows, ← String.append_assoc]

theorem feedbackCsv_eq (entries : List FeedbackEntry) :
    feedbackCsv entries = "Timestamp,Rating,Comment\n" ++ feedbackRows entries := by
  unfold feedbackCsv
  exact foldl_feedbackRow entries _

/-! ### Upload loop lemmas -/

theorem upload_loop_names (sid : String) (uploads : List Upload) :
    ∀ acc : List String × Store × FS,
      (uploads.foldl (uploadStep sid) acc).1 =
        acc.1 ++ uploads.filterMap
          (fun u => if u.filename = "" then none
            else some (storedName u.time u.filename)) := by
  induction uploads with
  | nil => intro acc; simp
  | cons u rest ih =>
      intro acc
      rw [List.foldl_cons, ih, List.filterMap_cons]
      by_cases hf : u.filename = ""
      · obtain ⟨up, st, fsx⟩ := acc
        simp [uploadStep, hf]
      · obtain ⟨up, st, fsx⟩ := acc
        simp [uploadStep, hf]

theorem upload_loop_preserve (sid : String) (uploads : List Upload) :
    ∀ (acc : List String × Store × FS) (s : SessionState),
      acc.2.1 sid = some s →
      ∃ t, (uploads.foldl (uploadStep sid) acc).2.1 sid = some t ∧
        t.messages = s.messages ∧ t.ticket_counter = s.ticket_counter ∧
        t.feedback = s.feedback := by
  induction uploads with
  | nil => intro acc s h; exact ⟨s, h, rfl, rfl, rfl⟩
  | cons u rest ih =>
      intro acc s h
      rw [List.foldl_cons]
      by_cases hf : u.filename = ""
      · obtain ⟨up, st, fsx⟩ := acc
        have hstep : uploadStep sid (up, st, fsx) u = (up, st, fsx) := by
          simp [uploadStep, hf]
        rw [hstep]
        exact ih _ s h
      · obtain ⟨up, st, fsx⟩ := acc
        have hs : st sid = some s := h
        have hstep : uploadStep sid (up, st, fsx) u =
            (up ++ [storedName u.time u.filename],
             updateStore st sid
               ⟨s.messages, s.files ++ [storedName u.time u.filename],
                s.ticket_counter, s.feedback⟩,
             fun k =>
               if k = uploadPath (storedName u.time u.filename) then some u.bytes
               else fsx k) := by
          simp [uploadStep, hf, readSession, hs]
        rw [hstep]
        obtain ⟨t, ht, h1, h2, h3⟩ := ih
          (up ++ [storedName u.time u.filename],
           updateStore st sid
             ⟨s.messages, s.files ++ [storedName u.time u.filename],
              s.ticket_counter, s.feedback⟩,
           fun k =>
             if k = uploadPath (storedName u.time u.filename) then some u.bytes
             else fsx k)
          ⟨s.messages, s.files ++ [storedName u.time u.filename],
           s.ticket_counter, s.feedback⟩ (updateStore_self _ _ _)
        exact ⟨t, ht, h1, h2, h3⟩

/-! ### Chat handler lemmas -/

theorem chat_model_none (store : Store) (fs : FS) (sid message : String)
    (voice : Bool) (tsU tsB : String) :
    chat store fs none sid message voice tsU tsB =
      (ChatResponse.failure "Model not available"
        "I apologize, but the AI model is currently unavailable.",
       updateStore (getOrCreate store sid) sid
         ⟨((store sid).getD defaultSession).messages ++ [⟨"user", message, tsU⟩],
          ((store sid).getD defaultSession).files,
          ((store sid).getD defaultSession).ticket_counter,
          ((store sid).getD defaultSession).feedback⟩) := by
  unfold chat
  simp [readSession_getOrCreate]

theorem chat_inference_error (store : Store) (fs : FS)
    (g : List RoleParts → Except String String) (sid message : String)
    (voice : Bool) (tsU tsB e : String)
    (h : g [⟨"user",
        assembleParts fs message ((store sid).getD defaultSession).files⟩] =
      Except.error e) :
    chat store fs (some g) sid message voice tsU tsB =
      (ChatResponse.failure e
        "An error occurred while processing your request.",
       updateStore (getOrCreate store sid) sid
         ⟨((store sid).getD defaultSession).messages ++ [⟨"user", message, tsU⟩],
          ((store sid).getD defaultSession).files,
          ((store sid).getD defaultSession).ticket_counter,
          ((store sid).getD defaultSession).feedback⟩) := by
  unfold chat
  simp only [readSession_getOrCreate]
  rw [h]

theorem chat_inference_ok (store : Store) (fs : FS)
    (g : List RoleParts → Except String String) (sid message : String)
    (voice : Bool) (tsU tsB r : String)
    (h : g [⟨"user",
        assembleParts fs message ((store sid).getD defaultSession).files⟩] =
      Except.ok r) :
    chat store fs (some g) sid message voice tsU tsB =
      (ChatResponse.ok r voice,
       updateStore
         (updateStore (getOrCreate store sid) sid
           ⟨((store sid).getD defaultSession).messages ++ [⟨"user", message, tsU⟩],
            ((store sid).getD defaultSession).files,
            ((store sid).getD defaultSession).ticket_counter,
            ((store sid).getD defaultSession).feedback⟩) sid
         ⟨((store sid).getD defaultSession).messages ++ [⟨"user", message, tsU⟩]
            ++ [⟨"assistant", r, tsB⟩],
          ((store sid).getD defaultSession).files,
          ((store sid).getD defaultSession).ticket_counter,
          ((store sid).getD defaultSession).feedback⟩) := by
  unfold chat
  simp only [readSession_getOrCreate]
  rw [h]

/-! ### Claim theorems -/

/-- Claim C2: calling the create-ticket operation N ≥ 1 times sequentially on
a session whose counter starts at 0 (or that does not exist yet) returns
exactly the ticket numbers Q001, Q002, ... — `Q` followed by the counter
zero-padded to width 3 — with no gaps and no repeats, and the counter after
the calls equals N. -/
theorem create_ticket_sequence (store : Store) (sid : String) (N : Nat)
    (hN : 1 ≤ N) (h0 : ∀ s, store sid = some s → s.ticket_counter = 0) :
    (ticketNumbers sid N store).1 =
      (List.range N).map (fun i => ticketFormat (i + 1)) ∧
    ∃ s, (ticketNumbers sid N store).2 sid = some s ∧ s.ticket_counter = N := by
  have hc : ((store sid).getD defaultSession).ticket_counter = 0 := by
    cases h : store sid with
    | none => rfl
    | some s => simpa using h0 s h
  constructor
  · rw [ticketNumbers_results]
    simp only [hc, Nat.zero_add]
  · obtain ⟨M, rfl⟩ : ∃ M, N = M + 1 := ⟨N - 1, by omega⟩
    rw [ticketNumbers_counter]
    exact ⟨_, rfl, by simp [hc]⟩

/-- Witness for C2: three create-ticket calls on the fresh session `s1` of
the empty store return Q001, Q002, Q003 and leave the counter at 3. -/
theorem create_ticket_sequence_witness :
    (ticketNumbers "s1" 3 emptyStore).1 = ["Q001", "Q002", "Q003"] ∧
    ∃ s, (ticketNumbers "s1" 3 emptyStore).2 "s1" = some s ∧
      s.ticket_counter = 3 := by
  have h := create_ticket_sequence emptyStore "s1" 3 (by decide)
    (fun s hs => nomatch hs)
  exact ⟨h.1.trans (by rfl), h.2⟩

/-- Claim C4: with a non-empty text message, the assembled content-part list
is the qualifying audio parts in REVERSE of stored file order (last stored
file first) followed by the text part, which is always last. -/
theorem parts_order (fs : FS) (message : String) (files : List String)
    (h : message ≠ "") :
    assembleParts fs message files =
      (files.filterMap (audioPart fs)).reverse ++ [ContentPart.text message] := by
  rw [assembleParts_eq, if_pos h]

/-- Witness for C4: files `a.wav`, `b.mp3` with text `hi` yield the b.mp3
audio part first, then the a.wav audio part, then the text part. -/
theorem parts_order_witness :
    "hi" ≠ "" ∧
    assembleParts fsAB "hi" ["a.wav", "b.mp3"] =
      [ContentPart.inline_data "audio/mp3" "AQ==",
       ContentPart.inline_data "audio/wav" "AA==",
       ContentPart.text "hi"] := by
  refine ⟨by decide, (parts_order fsAB "hi" ["a.wav", "b.mp3"] (by decide)).trans ?_⟩
  rfl

/-- Claim C6: snapshot export on an id that was never created fails with the
not-found error and does not create a session for the id; on an existing id
it returns exactly the projection of messages, files and ticket counter, and
in both cases the whole session store is left unchanged. -/
theorem export_json_spec (store : Store) (sid : String) :
    (store sid = none →
      (export_json store sid).1 = ExportJsonResponse.err "Session not found" ∧
      (export_json store sid).2 sid = none) ∧
    (∀ s, store sid = some s →
      (export_json store sid).1 =
        ExportJsonResponse.ok sid s.messages s.files s.ticket_counter) ∧
    (export_json store sid).2 = store := by
  refine ⟨fun h => ?_, fun s h => ?_, ?_⟩
  · unfold export_json
    rw [h]
    exact ⟨rfl, h⟩
  · unfold export_json
    rw [h]
  · unfold export_json
    cases h : store sid <;> rfl

/-- Witness for C6: the unseen id case on the empty store and the existing id
case on a populated store. -/
theorem export_json_spec_witness :
    (emptyStore "s1" = none ∧
      (export_json emptyStore "s1").1 =
        ExportJsonResponse.err "Session not found" ∧
      (export_json emptyStore "s1").2 "s1" = none) ∧
    (storeEx "s1" = some
        ⟨[⟨"user", "hi", "t0"⟩], ["f.wav"], 2,
         [⟨"5", "good", "t1"⟩, ⟨"1", "bad, \"quoted\"", "t2"⟩]⟩ ∧
      (export_json storeEx "s1").1 =
        ExportJsonResponse.ok "s1" [⟨"user", "hi", "t0"⟩] ["f.wav"] 2) := by
  refine ⟨⟨rfl, (export_json_spec emptyStore "s1").1 rfl⟩, ⟨rfl, ?_⟩⟩
  exact (export_json_spec storeEx "s1").2.1 _ rfl

/-- Claim C7: a file whose extension is not in the audio allow-list or that
is missing on disk yields no content part and no error: the part for it is
`none` and removing it from anywhere in the file list leaves the assembled
parts unchanged (the remaining files are still processed). -/
theorem skip_nonqualifying_files (fs : FS) (f : String)
    (h : isAudioName f = false ∨ fs (uploadPath f) = none) :
    audioPart fs f = none ∧
    ∀ message files1 files2,
      assembleParts fs message (files1 ++ f :: files2) =
        assembleParts fs message (files1 ++ files2) := by
  have hnone : audioPart fs f = none := by
    unfold audioPart
    rcases h with h | h
    · cases hfs : fs (uploadPath f) <;> simp [h, hfs]
    · rw [h]
  refine ⟨hnone, fun message files1 files2 => ?_⟩
  rw [assembleParts_eq, assembleParts_eq, List.filterMap_append,
    List.filterMap_append]
  simp [List.filterMap_cons, hnone]

/-- Witness for C7: `doc.pdf` is present on disk but not audio, so it is
skipped while `a.wav` before it still contributes its part. -/
theorem skip_nonqualifying_files_witness :
    (isAudioName "doc.pdf" = false ∨ fsDoc (uploadPath "doc.pdf") = none) ∧
    audioPart fsDoc "doc.pdf" = none ∧
    assembleParts fsDoc "hi" (["a.wav"] ++ "doc.pdf" :: []) =
      assembleParts fsDoc "hi" (["a.wav"] ++ []) := by
  have h : isAudioName "doc.pdf" = false ∨ fsDoc (uploadPath "doc.pdf") = none :=
    Or.inl (by decide)
  have hs := skip_nonqualifying_files fsDoc "doc.pdf" h
  exact ⟨h, hs.1, hs.2 "hi" ["a.wav"] []⟩

/-- Claim C5: feedback export fails with the no-data error exactly when the
session does not exist or its feedback list is empty; otherwise it returns
the header line `Timestamp,Rating,Comment` followed by one row per entry in
insertion order, the comment wrapped in double quotes verbatim with no
escaping (see `feedbackRow`). -/
theorem export_feedback_spec (store : Store) (sid : String) :
    ((export_feedback store sid).1 =
        ExportFeedbackResponse.err "No feedback data available" ↔
      store sid = none ∨ ∃ s, store sid = some s ∧ s.feedback = []) ∧
    (∀ s, store sid = some s → s.feedback ≠ [] →
      (export_feedback store sid).1 =
        ExportFeedbackResponse.ok
          ("Timestamp,Rating,Comment\n" ++ feedbackRows s.feedback)
          ("feedback_" ++ sid ++ ".csv")) := by
  constructor
  · unfold export_feedback
    cases h : store sid with
    | none => simp [h]
    | some s =>
        by_cases hf : s.feedback = [] <;> simp [h, hf]
  · intro s h hf
    unfold export_feedback
    rw [h]
    simp [hf, feedbackCsv_eq]

/-- Witness for C5: a populated session whose export succeeds with the
expected CSV (note the unescaped comma and quotes inside the second comment),
and an empty session whose export fails with the no-data error. -/
theorem export_feedback_spec_witness :
    (storeEx "s1" = some
        ⟨[⟨"user", "hi", "t0"⟩], ["f.wav"], 2,
         [⟨"5", "good", "t1"⟩, ⟨"1", "bad, \"quoted\"", "t2"⟩]⟩ ∧
      (export_feedback storeEx "s1").1 =
        ExportFeedbackResponse.ok
          "Timestamp,Rating,Comment\nt1,5,\"good\"\nt2,1,\"bad, \"quoted\"\"\n"
          "feedback_s1.csv") ∧
    ((export_feedback emptyStore "s1").1 =
      ExportFeedbackResponse.err "No feedback data available") := by
  refine ⟨⟨rfl, ?_⟩, ?_⟩
  · have := (export_feedback_spec storeEx "s1").2 _ rfl (by decide)
    exact this.trans (by rfl)
  · exact ((export_feedback_spec emptyStore "s1").1).2 (Or.inl rfl)

/-- Claim C3: clearing an existing session empties its messages and files,
leaves its feedback and ticket counter unchanged, and a feedback export
after the clear returns exactly what it would have returned before. -/
theorem clear_preserves_feedback (store : Store) (fs : FS) (sid : String)
    (s : SessionState) (h : store sid = some s) :
    (clear_chat store fs sid).1 = ⟨true, none⟩ ∧
    (clear_chat store fs sid).2.1 sid =
      some ⟨[], [], s.ticket_counter, s.feedback⟩ ∧
    (export_feedback (clear_chat store fs sid).2.1 sid).1 =
      (export_feedback store sid).1 ∧
    (s.feedback ≠ [] →
      (export_feedback (clear_chat store fs sid).2.1 sid).1 =
        ExportFeedbackResponse.ok
          ("Timestamp,Rating,Comment\n" ++ feedbackRows s.feedback)
          ("feedback_" ++ sid ++ ".csv")) := by
  have hstore : (clear_chat store fs sid).2.1 sid =
      some ⟨[], [], s.ticket_counter, s.feedback⟩ := by
    unfold clear_chat
    rw [h]
    exact updateStore_self _ _ _
  have hresp : (clear_chat store fs sid).1 = ⟨true, none⟩ := by
    unfold clear_chat
    rw [h]
  have hexp : (export_feedback (clear_chat store fs sid).2.1 sid).1 =
      (export_feedback store sid).1 := by
    unfold export_feedback
    rw [h, hstore]
    by_cases hf : s.feedback = [] <;> simp [hf]
  refine ⟨hresp, hstore, hexp, fun hf => ?_⟩
  unfold export_feedback
  rw [hstore]
  simp [hf, feedbackCsv_eq]

/-- Witness for C3: clearing the populated session `s1` of `storeEx`. -/
theorem clear_preserves_feedback_witness :
    storeEx "s1" = some
      ⟨[⟨"user", "hi", "t0"⟩], ["f.wav"], 2,
       [⟨"5", "good", "t1"⟩, ⟨"1", "bad, \"quoted\"", "t2"⟩]⟩ ∧
    (clear_chat storeEx fsAB "s1").1 = ⟨true, none⟩ ∧
    (clear_chat storeEx fsAB "s1").2.1 "s1" =
      some ⟨[], [], 2, [⟨"5", "good", "t1"⟩, ⟨"1", "bad, \"quoted\"", "t2"⟩]⟩ ∧
    (export_feedback (clear_chat storeEx fsAB "s1").2.1 "s1").1 =
      (export_feedback storeEx "s1").1 := by
  have h := clear_preserves_feedback storeEx fsAB "s1" _ rfl
  exact ⟨rfl, h.1, h.2.1, h.2.2.1⟩

/-- Claim C8: whenever the model is unavailable or the inference call fails,
the chat handler returns a response with an error field plus a fixed apology
string, served with HTTP status 200 (the handler never sets a status and
never lets the exception escape: `chat` is total and returns a value in
every case). -/
theorem chat_failure_response (store : Store) (fs : FS) (gw : Gateway)
    (sid message : String) (voice : Bool) (tsU tsB : String)
    (h : gw = none ∨ ∃ g e, gw = some g ∧
      g [⟨"user",
          assembleParts fs message ((store sid).getD defaultSession).files⟩] =
        Except.error e) :
    ∃ err apology,
      (chat store fs gw sid message voice tsU tsB).1 =
        ChatResponse.failure err apology ∧
      (apology = "I apologize, but the AI model is currently unavailable." ∨
        apology = "An error occurred while processing your request.") ∧
      chatStatus (chat store fs gw sid message voice tsU tsB).1 = 200 := by
  rcases h with rfl | ⟨g, e, rfl, hg⟩
  · exact ⟨"Model not available", _,
      by rw [chat_model_none], Or.inl rfl, rfl⟩
  · exact ⟨e, _,
      by rw [chat_inference_error store fs g sid message voice tsU tsB e hg],
      Or.inr rfl, rfl⟩

/-- Witness for C8: the model-unavailable branch at concrete inputs. -/
theorem chat_failure_response_witness :
    ∃ err apology,
      (chat emptyStore emptyFS none "s1" "hi" false "t1" "t2").1 =
        ChatResponse.failure err apology ∧
      (apology = "I apologize, but the AI model is currently unavailable." ∨
        apology = "An error occurred while processing your request.") ∧
      chatStatus (chat emptyStore emptyFS none "s1" "hi" false "t1" "t2").1 =
        200 :=
  chat_failure_response emptyStore emptyFS none "s1" "hi" false "t1" "t2"
    (Or.inl rfl)

/-- Claim C10: the user message is appended to the session before inference,
so when the inference call fails the session still ends with that user
message and no assistant message is appended — the error path does not roll
the session state back. -/
theorem chat_error_keeps_user_message (store : Store) (fs : FS)
    (g : List RoleParts → Except String String) (sid message : String)
    (voice : Bool) (tsU tsB e : String)
    (h : g [⟨"user",
        assembleParts fs message ((store sid).getD defaultSession).files⟩] =
      Except.error e) :
    (chat store fs (some g) sid message voice tsU tsB).2 sid =
      some ⟨((store sid).getD defaultSession).messages ++ [⟨"user", message, tsU⟩],
            ((store sid).getD defaultSession).files,
            ((store sid).getD defaultSession).ticket_counter,
            ((store sid).getD defaultSession).feedback⟩ ∧
    (chat store fs (some g) sid message voice tsU tsB).1 =
      ChatResponse.failure e "An error occurred while processing your request." := by
  rw [chat_inference_error store fs g sid message voice tsU tsB e h]
  exact ⟨updateStore_self _ _ _, rfl⟩

/-- Witness for C10: a gateway that always raises leaves the fresh session
with exactly the user message and produces the error response. -/
theorem chat_error_keeps_user_message_witness :
    (chat emptyStore emptyFS (some fun _ => Except.error "boom") "s1" "hi"
        false "t1" "t2").2 "s1" =
      some ⟨[⟨"user", "hi", "t1"⟩], [], 0, []⟩ ∧
    (chat emptyStore emptyFS (some fun _ => Except.error "boom") "s1" "hi"
        false "t1" "t2").1 =
      ChatResponse.failure "boom"
        "An error occurred while processing your request." := by
  have h := chat_error_keeps_user_message emptyStore emptyFS
    (fun _ => Except.error "boom") "s1" "hi" false "t1" "t2" "boom" rfl
  exact ⟨h.1.trans (by rfl), h.2⟩

/-! ### Chat session-field preservation (all gateway outcomes) -/

theorem chat_session_fields (store : Store) (fs : FS) (gw : Gateway)
    (sid message : String) (voice : Bool) (tsU tsB : String) :
    ∃ s, (chat store fs gw sid message voice tsU tsB).2 sid = some s ∧
      s.files = ((store sid).getD defaultSession).files ∧
      s.ticket_counter = ((store sid).getD defaultSession).ticket_counter ∧
      s.feedback = ((store sid).getD defaultSession).feedback := by
  rcases gw with _ | g
  · rw [chat_model_none]
    exact ⟨_, updateStore_self _ _ _, rfl, rfl, rfl⟩
  · cases hg : g [⟨"user",
        assembleParts fs message ((store sid).getD defaultSession).files⟩] with
    | error e =>
        rw [chat_inference_error store fs g sid message voice tsU tsB e hg]
        exact ⟨_, updateStore_self _ _ _, rfl, rfl, rfl⟩
    | ok r =>
        rw [chat_inference_ok store fs g sid message voice tsU tsB r hg]
        exact ⟨_, updateStore_self _ _ _, rfl, rfl, rfl⟩

/-- Claim C1 counterexample: the first operation referencing the unseen id
`s1` is a snapshot export, and it produces NO SessionState for that id — the
store still has no entry afterwards and the handler returns a not-found
error — contradicting the claim that every first operation, snapshot export
included, produces an all-default SessionState. -/
theorem export_json_unseen_no_create :
    (export_json emptyStore "s1").2 "s1" = none ∧
    (export_json emptyStore "s1").1 =
      ExportJsonResponse.err "Session not found" := ⟨rfl, rfl⟩

/-- Claim C1 as amended: for an unseen session id, the five mutating
operations (init_session, upload, chat, create-ticket, feedback) create the
session initialized to the all-default SessionState before applying their own
effect, while the snapshot export, clear and feedback export operations do
NOT create a session for the id (they return a soft error instead). -/
theorem unseen_session_first_op (store : Store) (fs : FS) (gw : Gateway)
    (sid message rating comment ts tsU tsB : String) (voice : Bool)
    (uploads : List Upload) (h : store sid = none) :
    getOrCreate store sid sid = some defaultSession ∧
    (init_session store sid).2 sid = some defaultSession ∧
    (∃ s, (upload_file store fs sid uploads).2.1 sid = some s ∧
      s.messages = [] ∧ s.ticket_counter = 0 ∧ s.feedback = []) ∧
    (∃ s, (chat store fs gw sid message voice tsU tsB).2 sid = some s ∧
      s.files = [] ∧ s.ticket_counter = 0 ∧ s.feedback = []) ∧
    (create_ticket store sid).2 sid = some ⟨[], [], 1, []⟩ ∧
    (submit_feedback store sid rating comment ts).2 sid =
      some ⟨[], [], 0, [⟨rating, comment, ts⟩]⟩ ∧
    (export_json store sid).2 sid = none ∧
    (clear_chat store fs sid).2.1 sid = none ∧
    (export_feedback store sid).2 sid = none := by
  have hoc : getOrCreate store sid sid = some defaultSession := by
    rw [getOrCreate_self, h]
    rfl
  refine ⟨hoc, hoc, ?_, ?_, ?_, ?_, ?_, ?_, ?_⟩
  · obtain ⟨s, hs, h1, h2, h3⟩ :=
      upload_loop_preserve sid uploads ([], getOrCreate store sid, fs)
        defaultSession hoc
    exact ⟨s, hs, h1, h2, h3⟩
  · obtain ⟨s, hs, h1, h2, h3⟩ :=
      chat_session_fields store fs gw sid message voice tsU tsB
    rw [h] at h1 h2 h3
    exact ⟨s, hs, h1, h2, h3⟩
  · rw [create_ticket_store, h]
    rfl
  · have hsf : (submit_feedback store sid rating comment ts).2 sid =
        some ⟨((store sid).getD defaultSession).messages,
              ((store sid).getD defaultSession).files,
              ((store sid).getD defaultSession).ticket_counter,
              ((store sid).getD defaultSession).feedback
                ++ [⟨rating, comment, ts⟩]⟩ := by
      unfold submit_feedback
      simp [readSession_getOrCreate, updateStore_self]
    rw [hsf, h]
    rfl
  · unfold export_json
    rw [h]
    exact h
  · unfold clear_chat
    rw [h]
    exact h
  · unfold export_feedback
    rw [h]
    exact h

/-- Witness for amended C1, instantiated on the unseen id `s1` of the empty
store (gateway absent, no uploads). -/
theorem unseen_session_first_op_witness :
    getOrCreate emptyStore "s1" "s1" = some defaultSession ∧
    (init_session emptyStore "s1").2 "s1" = some defaultSession ∧
    (∃ s, (upload_file emptyStore emptyFS "s1" []).2.1 "s1" = some s ∧
      s.messages = [] ∧ s.ticket_counter = 0 ∧ s.feedback = []) ∧
    (∃ s, (chat emptyStore emptyFS none "s1" "hi" false "t1" "t2").2 "s1" =
        some s ∧
      s.files = [] ∧ s.ticket_counter = 0 ∧ s.feedback = []) ∧
    (create_ticket emptyStore "s1").2 "s1" = some ⟨[], [], 1, []⟩ ∧
    (submit_feedback emptyStore "s1" "5" "nice" "t").2 "s1" =
      some ⟨[], [], 0, [⟨"5", "nice", "t"⟩]⟩ ∧
    (export_json emptyStore "s1").2 "s1" = none ∧
    (clear_chat emptyStore emptyFS "s1").2.1 "s1" = none ∧
    (export_feedback emptyStore "s1").2 "s1" = none :=
  unseen_session_first_op emptyStore emptyFS none "s1" "hi" "5" "nice" "t"
    "t1" "t2" false [] rfl

/-- Claim C9 counterexample: uploading `a.wav` twice with the same epoch
second 100 yields the identical stored name `100_a.wav` twice, a plain
success response carrying no collision indication of any kind, and the
second write silently overwrites the bytes of the first — the collision is
silently ignored, not flagged. -/
theorem upload_collision_silent :
    (upload_file emptyStore emptyFS "s1"
        [⟨100, "a.wav", [1]⟩, ⟨100, "a.wav", [2]⟩]).1 =
      ⟨true, ["100_a.wav", "100_a.wav"]⟩ ∧
    (upload_file emptyStore emptyFS "s1"
        [⟨100, "a.wav", [1]⟩, ⟨100, "a.wav", [2]⟩]).2.2 "uploads/100_a.wav" =
      some [2] ∧
    (upload_file emptyStore emptyFS "s1"
        [⟨100, "a.wav", [1]⟩, ⟨100, "a.wav", [2]⟩]).2.1 "s1" =
      some ⟨[], ["100_a.wav", "100_a.wav"], 0, []⟩ := by
  refine ⟨rfl, rfl, rfl⟩

/-- Claim C9 as amended: every stored filename is the upload epoch seconds,
an underscore, then the original name; two uploads of the same original name
in the same second receive the IDENTICAL stored name, the response is a
plain success listing the duplicated name twice with no collision flag, and
the second blob overwrites the first. -/
theorem upload_stored_names (store : Store) (fs : FS) (sid : String)
    (uploads : List Upload) (t : Nat) (name : String) (b1 b2 : List Nat)
    (hname : name ≠ "") :
    (upload_file store fs sid uploads).1 =
      ⟨true, uploads.filterMap
        (fun u => if u.filename = "" then none
          else some (storedName u.time u.filename))⟩ ∧
    (upload_file store fs sid [⟨t, name, b1⟩, ⟨t, name, b2⟩]).1.files =
      [storedName t name, storedName t name] ∧
    (upload_file store fs sid [⟨t, name, b1⟩, ⟨t, name, b2⟩]).2.2
      (uploadPath (storedName t name)) = some b2 := by
  have hfmt : ∀ us : List Upload, (upload_file store fs sid us).1 =
      ⟨true, us.filterMap
        (fun u => if u.filename = "" then none
          else some (storedName u.time u.filename))⟩ := by
    intro us
    simp only [upload_file]
    rw [upload_loop_names]
    rfl
  refine ⟨hfmt uploads, ?_, ?_⟩
  · have := hfmt [⟨t, name, b1⟩, ⟨t, name, b2⟩]
    rw [show (upload_file store fs sid [⟨t, name, b1⟩, ⟨t, name, b2⟩]).1.files =
        ([⟨t, name, b1⟩, ⟨t, name, b2⟩] : List Upload).filterMap
          (fun u => if u.filename = "" then none
            else some (storedName u.time u.filename)) from congrArg UploadResponse.files this]
    simp [hname]
  · simp only [upload_file]
    simp [uploadStep, hname]

/-- Witness for amended C9: one upload stores `100_a.wav`, and the colliding
pair stores the identical name twice with the second bytes winning. -/
theorem upload_stored_names_witness :
    "a.wav" ≠ "" ∧
    (upload_file emptyStore emptyFS "s1" [⟨100, "a.wav", [1]⟩]).1 =
      ⟨true, ["100_a.wav"]⟩ ∧
    (upload_file emptyStore emptyFS "s1"
        [⟨100, "a.wav", [1]⟩, ⟨100, "a.wav", [2]⟩]).1.files =
      ["100_a.wav", "100_a.wav"] ∧
    (upload_file emptyStore emptyFS "s1"
        [⟨100, "a.wav", [1]⟩, ⟨100, "a.wav", [2]⟩]).2.2 "uploads/100_a.wav" =
      some [2] := by
  have h := upload_stored_names emptyStore emptyFS "s1" [⟨100, "a.wav", [1]⟩]
    100 "a.wav" [1] [2] (by decide)
  exact ⟨by decide, h.1.trans (by rfl), h.2.1.trans (by rfl), h.2.2⟩
